import Mathlib

/-!
Verification of the `ditto` traffic-shaper control plane and timeline scheduler.

The development is a shallow embedding of the Rust sources:
  * `src/ts_core/src/lib.rs`      — `TrafficConfig`, `TrafficShaper` (enable / apply / cleanup)
  * `src/ts_core/src/commands.rs` — `PfctlCommands`, `DnctlCommands` (subprocess wrappers)
  * `src/ts_core/src/rules.rs`    — `RuleGenerator`
  * `src/simulation/src/lib.rs`   — `Simulation`, the `Driver` future (timeline scheduler)
  * `src/simulation/src/models.rs`— manifest data model

External effects (the `pfctl` and `dnctl` subprocesses, the report sink and the
local filesystem) are modelled by an explicit system state `Sys` threaded through
every operation, together with an outcome oracle `Sys.outcome : Nat → Option
TrafficShapingError` giving the result of the k-th external operation executed
(`none` = success).  Each command records itself in `Sys.trace`, so theorems can
speak about which backend operations a code path performed and in which order.

Numeric conventions: Rust `f32` percentages are modelled as `ℚ` (no claim here
depends on float rounding or NaN), `u16`/`u32`/`u64` as `Nat` (no arithmetic in
the sources can overflow them), `Instant`/`Duration` as `Nat` time stamps.
-/

namespace Ditto

/-- Transport protocol selector (`ts_core/src/lib.rs`, `enum Protocol`). -/
inductive Protocol where
  | tcp
  | udp
  | both
deriving DecidableEq

/-- Report sink (`ts_core/src/lib.rs`, `enum Output`). -/
inductive Output where
  | none
  | stdout
  | file (path : String)
deriving DecidableEq

/-- Port range (`ts_core/src/lib.rs`, `struct PortRange`).  The Rust field
`end` is a Lean keyword, so it is named `stop` here. -/
structure PortRange where
  start : Nat
  stop : Nat
deriving DecidableEq

/-- Error taxonomy (`ts_core/src/lib.rs`, `enum TrafficShapingError`).
`systemError` carries the I/O error text instead of a `std::io::Error` value. -/
inductive TrafficShapingError where
  | invalidPacketLoss (v : ℚ)
  | invalidPortRange (start : Nat) (stop : Nat)
  | commandError (msg : String)
  | systemError (msg : String)
deriving DecidableEq

/-- Session configuration (`ts_core/src/lib.rs`, `struct TrafficConfig`). -/
structure TrafficConfig where
  packet_loss : ℚ
  latency : Nat
  max_bandwidth : Nat
  protocol : Protocol
  src_ports : Option PortRange
  dst_ports : Option PortRange
  report_output : Output
deriving DecidableEq

/-- Parameter delta for a live update (`ts_core/src/lib.rs`, `struct ApplyConfig`). -/
structure ApplyConfig where
  packet_loss : ℚ
  latency : Nat
  max_bandwidth : Nat
deriving DecidableEq

/-- Validating constructor, `TrafficConfig::new` (`ts_core/src/lib.rs` lines 79-102).
The Rust body validates only the packet-loss percentage; the supplied port
ranges are stored as given. -/
def TrafficConfig.new (packet_loss : ℚ) (latency : Nat) (max_bandwidth : Nat)
    (protocol : Protocol) (src_ports : Option PortRange) (dst_ports : Option PortRange)
    (output : Output) : Except TrafficShapingError TrafficConfig :=
  if ¬(0 ≤ packet_loss ∧ packet_loss ≤ 100) then
    Except.error (TrafficShapingError.invalidPacketLoss packet_loss)
  else
    Except.ok
      { packet_loss := packet_loss
        latency := latency
        max_bandwidth := max_bandwidth
        protocol := protocol
        src_ports := src_ports
        dst_ports := dst_ports
        report_output := output }

/-- Arguments of one `dnctl pipe N config` invocation. -/
structure PipeParams where
  pipe_num : Nat
  bandwidth : Option Nat
  delay : Option Nat
  plr : Option ℚ
deriving DecidableEq

/-- One structured report record (`ts_core/src/lib.rs`, `struct EventReport`).
The Rust struct also stores the wall-clock time stamp `now : DateTime<Local>`;
ambient wall-clock time is not part of the model, so that field is omitted. -/
structure EventReport where
  bandwidth : Nat
  latency : Nat
  packet_loss : ℚ
deriving DecidableEq

/-- Constructor `EventReport::new` (`ts_core/src/lib.rs` lines 226-233). -/
def EventReport.new (bandwidth : Nat) (latency : Nat) (packet_loss : ℚ) : EventReport :=
  { bandwidth := bandwidth, latency := latency, packet_loss := packet_loss }

/-- Tag identifying one external operation (subprocess invocation or local I/O). -/
inductive CmdTag where
  | pfctlEnable
  | pfctlLoadRules (rules : String) (anchor : Option String)
  | pfctlRestore
  | pfctlShowRefs
  | pfctlDisableCmd
  | dnctlShow
  | dnctlConfigPipe (p : PipeParams)
  | dnctlFlush
  | openReportFile (path : String)
  | serializeReport
  | writeReport (r : EventReport)
  | readBasePolicy
deriving DecidableEq

/-- State of the host plus the record of external operations performed so far.

`outcome k` is the result of the k-th external operation (counted by `ticks`):
`none` means the operation succeeds, `some e` that it fails with `e`.  The
remaining fields model the backend facility at the capability level of spec §6:
`pfEnabled`/`pfRefCount` the packet filter and its host reference count (the
documented semantics of `pfctl -E` / `pfctl -d`), `pipes` the set of existing
dummynet pipes (`dnctl pipe N config` creates the pipe if absent, per the
comment in `TrafficShaper::enable`), `pipeLog` every successful pipe
configuration in order, `ruleLoads` every successful `pfctl -f` rule load,
`written` every record delivered to the report sink, `basePolicy` the content
of `/etc/pf.conf`. -/
structure Sys where
  ticks : Nat
  outcome : Nat → Option TrafficShapingError
  trace : List CmdTag
  pfEnabled : Bool
  pfRefCount : Nat
  pipes : List Nat
  pipeLog : List PipeParams
  ruleLoads : List (String × Option String)
  written : List EventReport
  basePolicy : String

/-- Run one fallible external operation: consume a tick, record the attempt in
the trace, and on success apply its effect `eff` to the state.  A failing
operation has no effect beyond being attempted. -/
def runCmd (tag : CmdTag) (eff : Sys → Sys) (s : Sys) :
    Sys × Except TrafficShapingError Unit :=
  let s' := { s with ticks := s.ticks + 1, trace := s.trace ++ [tag] }
  match s.outcome s.ticks with
  | Option.none => (eff s', Except.ok ())
  | Option.some e => (s', Except.error e)

/-- Run one external operation whose failure is swallowed by the caller
(`.ok()` on the file open, `let _ =` on the sink writes, the logged
serialization error): returns `true` on success instead of propagating. -/
def softCmd (tag : CmdTag) (eff : Sys → Sys) (s : Sys) : Sys × Bool :=
  let s' := { s with ticks := s.ticks + 1, trace := s.trace ++ [tag] }
  match s.outcome s.ticks with
  | Option.none => (eff s', true)
  | Option.some _ => (s', false)

/-- `PfctlCommands::load_rules` (`ts_core/src/commands.rs` lines 11-27): writes
the rules to a temp file and runs `pfctl -f`.  The call sites in
`TrafficShaper::enable` pass an optional anchor name as second argument, which
is kept here.  Temp-file I/O failure and `pfctl` failure are both delivered by
the oracle. -/
def PfctlCommands.load_rules (rules : String) (anchor : Option String) (s : Sys) :
    Sys × Except TrafficShapingError Unit :=
  runCmd (CmdTag.pfctlLoadRules rules anchor)
    (fun s => { s with ruleLoads := s.ruleLoads ++ [(rules, anchor)] }) s

/-- `PfctlCommands::restore_original_rules` (`commands.rs` lines 30-43):
`pfctl -f /etc/pf.conf`, discarding the session rules. -/
def PfctlCommands.restore_original_rules (s : Sys) :
    Sys × Except TrafficShapingError Unit :=
  runCmd CmdTag.pfctlRestore (fun s => { s with ruleLoads := [] }) s

/-- `PfctlCommands::enable` (`commands.rs` lines 46-59): `pfctl -E` enables the
packet filter and takes a reference token (increments the host reference
count — the documented pfctl semantics). -/
def PfctlCommands.enable (s : Sys) : Sys × Except TrafficShapingError Unit :=
  runCmd CmdTag.pfctlEnable
    (fun s => { s with pfEnabled := true, pfRefCount := s.pfRefCount + 1 }) s

/-- `PfctlCommands::disable` (`commands.rs` lines 62-91): queries the host
reference count with `pfctl -s References`, and runs `pfctl -d` (which disables
the filter outright) only when at most one reference exists.  Note the body
issues no decrementing command at all on the `ref_count > 1` path. -/
def PfctlCommands.disable (s : Sys) : Sys × Except TrafficShapingError Unit :=
  let s1 := { s with ticks := s.ticks + 1, trace := s.trace ++ [CmdTag.pfctlShowRefs] }
  match s.outcome s.ticks with
  | Option.some e => (s1, Except.error e)
  | Option.none =>
    let ref_count := s.pfRefCount
    if ref_count ≤ 1 then
      runCmd CmdTag.pfctlDisableCmd (fun s => { s with pfEnabled := false }) s1
    else
      (s1, Except.ok ())

/-- `DnctlCommands::pipe_exists` (`commands.rs` lines 96-109): `dnctl show`,
then checks whether the listing mentions the pipe. -/
def DnctlCommands.pipe_exists (pipe_num : Nat) (s : Sys) :
    Sys × Except TrafficShapingError Bool :=
  let s' := { s with ticks := s.ticks + 1, trace := s.trace ++ [CmdTag.dnctlShow] }
  match s.outcome s.ticks with
  | Option.none => (s', Except.ok (s.pipes.contains pipe_num))
  | Option.some e => (s', Except.error e)

/-- `DnctlCommands::configure_pipe` (`commands.rs` lines 112-142): `dnctl pipe N
config ...`.  Creates the pipe if it does not exist, otherwise updates it (the
documented dummynet semantics, restated in the comment at
`TrafficShaper::enable` step 2). -/
def DnctlCommands.configure_pipe (pipe_num : Nat) (bandwidth : Option Nat)
    (delay : Option Nat) (plr : Option ℚ) (s : Sys) :
    Sys × Except TrafficShapingError Unit :=
  runCmd (CmdTag.dnctlConfigPipe ⟨pipe_num, bandwidth, delay, plr⟩)
    (fun s =>
      { s with
        pipes := if s.pipes.contains pipe_num then s.pipes else s.pipes ++ [pipe_num]
        pipeLog := s.pipeLog ++ [⟨pipe_num, bandwidth, delay, plr⟩] }) s

/-- `DnctlCommands::flush_pipes` (`commands.rs` lines 145-158): `dnctl -f flush`
removes every pipe. -/
def DnctlCommands.flush_pipes (s : Sys) : Sys × Except TrafficShapingError Unit :=
  runCmd CmdTag.dnctlFlush (fun s => { s with pipes := [] }) s

/-- `RuleGenerator::generate_pf_rules` (`ts_core/src/rules.rs` lines 9-46):
pure construction of the dummynet rule pair (inbound rule plus the same rule
with `in` replaced by `out`). -/
def RuleGenerator.generate_pf_rules (config : TrafficConfig) (pipe_num : Nat) :
    Except TrafficShapingError String :=
  let proto : String :=
    match config.protocol with
    | Protocol.tcp => "tcp"
    | Protocol.udp => "udp"
    | Protocol.both => "proto \x7b tcp udp \x7d"
  let rule0 : String := "dummynet in quick proto " ++ proto ++ " "
  let rule1 : String :=
    match config.src_ports with
    | Option.some src_ports =>
        rule0 ++ "from port " ++ toString src_ports.start ++ ":" ++
          toString src_ports.stop ++ " "
    | Option.none => rule0 ++ "from any "
  let rule2 : String :=
    match config.dst_ports with
    | Option.some dst_ports =>
        rule1 ++ "to port " ++ toString dst_ports.start ++ ":" ++
          toString dst_ports.stop ++ " "
    | Option.none => rule1 ++ "to any "
  let rule : String := rule2 ++ "pipe " ++ toString pipe_num ++ "\n"
  let out_rule : String := rule.replace "in" "out"
  Except.ok (rule ++ out_rule)

/-- `RuleGenerator::generate_anchor_rules` (`rules.rs` lines 48-61): reads
`/etc/pf.conf` (an external operation, delivered by the oracle; failure is the
`SystemError` path) and appends the anchor section. -/
def RuleGenerator.generate_anchor_rules (name : String) (s : Sys) :
    Sys × Except TrafficShapingError String :=
  let s' := { s with ticks := s.ticks + 1, trace := s.trace ++ [CmdTag.readBasePolicy] }
  match s.outcome s.ticks with
  | Option.none =>
      (s', Except.ok
        (s.basePolicy ++ "\n\n# Traffic shaping rules added by traffic_shaper\n" ++
          "dummynet-anchor \x22" ++ name ++ "\x22\n" ++
          "anchor \x22" ++ name ++ "\x22\n\n"))
  | Option.some e => (s', Except.error e)

/-- Fixed limiter id (`ts_core/src/lib.rs`, `DEFAULT_PIPE_NUMBER`). -/
def DEFAULT_PIPE_NUMBER : Nat := 1

/-- The control-plane object (`ts_core/src/lib.rs`, `struct TrafficShaper`).
`file_handle` abstracts the open report `File` to its presence. -/
structure TrafficShaper where
  config : TrafficConfig
  file_handle : Option Unit
deriving DecidableEq

/-- `TrafficShaper::new` (`lib.rs` lines 114-119). -/
def TrafficShaper.new (config : TrafficConfig) : TrafficShaper :=
  { config := config, file_handle := Option.none }

/-- Step 3 of `TrafficShaper::enable` (`lib.rs` lines 138-147): generate and
load the anchor rules and the pf rules. -/
def TrafficShaper.loadRulesStep (ts : TrafficShaper) (s : Sys) :
    Sys × Except TrafficShapingError Unit :=
  let anchor_name : String := "traffic_shaper"
  match RuleGenerator.generate_anchor_rules anchor_name s with
  | (s1, Except.error e) => (s1, Except.error e)
  | (s1, Except.ok anchor_rules) =>
    match PfctlCommands.load_rules anchor_rules (Option.some anchor_name) s1 with
    | (s2, Except.error e) => (s2, Except.error e)
    | (s2, Except.ok _) =>
      match RuleGenerator.generate_pf_rules ts.config DEFAULT_PIPE_NUMBER with
      | Except.error e => (s2, Except.error e)
      | Except.ok rules => PfctlCommands.load_rules rules Option.none s2

/-- Step 4 of `TrafficShaper::enable` (`lib.rs` lines 149-161): open (create /
truncate) the report file when the sink is `File`; an opening failure is logged
and degrades to no handle (`.ok()`), it is not an error. -/
def TrafficShaper.openReport (output : Output) (s : Sys) : Sys × Option Unit :=
  match output with
  | Output.file path =>
    let (s', ok) := softCmd (CmdTag.openReportFile path) id s
    (s', if ok then Option.some () else Option.none)
  | _ => (s, Option.none)

/-- `TrafficShaper::enable` (`lib.rs` lines 122-164): `pfctl -E`, configure the
pipe, then load rules only when `pipe_exists` reports the pipe absent, finally
open the report file.  Returns the shaper with its new `file_handle`. -/
def TrafficShaper.enable (ts : TrafficShaper) (s : Sys) :
    Sys × Except TrafficShapingError TrafficShaper :=
  match PfctlCommands.enable s with
  | (s1, Except.error e) => (s1, Except.error e)
  | (s1, Except.ok _) =>
    match DnctlCommands.configure_pipe DEFAULT_PIPE_NUMBER
        (Option.some ts.config.max_bandwidth) (Option.some ts.config.latency)
        (Option.some (ts.config.packet_loss / 100)) s1 with
    | (s2, Except.error e) => (s2, Except.error e)
    | (s2, Except.ok _) =>
      match DnctlCommands.pipe_exists DEFAULT_PIPE_NUMBER s2 with
      | (s3, Except.error e) => (s3, Except.error e)
      | (s3, Except.ok ex) =>
        match (if ex then (s3, Except.ok ()) else ts.loadRulesStep s3) with
        | (s4, Except.error e) => (s4, Except.error e)
        | (s4, Except.ok _) =>
          let (s5, fh) := TrafficShaper.openReport ts.config.report_output s4
          (s5, Except.ok { ts with file_handle := fh })

/-- The report-emission tail of `TrafficShaper::apply` (`lib.rs` lines 178-197):
serialize the record (failure only logged), then write it to the configured
sink (failure ignored via `let _ =`; a missing file handle skips the write). -/
def TrafficShaper.emitReport (ts : TrafficShaper) (event_report : EventReport) (s : Sys) :
    Sys × Except TrafficShapingError Unit :=
  let (s2, ser) := softCmd CmdTag.serializeReport id s
  if ser then
    match ts.config.report_output with
    | Output.stdout =>
      let (s3, _) := softCmd (CmdTag.writeReport event_report)
        (fun s => { s with written := s.written ++ [event_report] }) s2
      (s3, Except.ok ())
    | Output.file _ =>
      match ts.file_handle with
      | Option.some _ =>
        let (s3, _) := softCmd (CmdTag.writeReport event_report)
          (fun s => { s with written := s.written ++ [event_report] }) s2
        (s3, Except.ok ())
      | Option.none => (s2, Except.ok ())
    | Output.none => (s2, Except.ok ())
  else (s2, Except.ok ())

/-- `TrafficShaper::apply` (`lib.rs` lines 166-200): one `configure_pipe` call
(the only fallible step), then — unless the sink is `None` — the report
emission, whose failures never become `apply`'s error. -/
def TrafficShaper.apply (ts : TrafficShaper) (config : ApplyConfig) (s : Sys) :
    Sys × Except TrafficShapingError Unit :=
  match DnctlCommands.configure_pipe DEFAULT_PIPE_NUMBER
      (Option.some config.max_bandwidth) (Option.some config.latency)
      (Option.some (config.packet_loss / 100)) s with
  | (s1, Except.error e) => (s1, Except.error e)
  | (s1, Except.ok _) =>
    if ts.config.report_output = Output.none then (s1, Except.ok ())
    else
      ts.emitReport (EventReport.new config.max_bandwidth config.latency config.packet_loss) s1

/-- `TrafficShaper::cleanup` (`lib.rs` lines 203-214): flush the pipes, restore
the original rules, then `disable` — each chained with `?`, so any failure
returns immediately. -/
def TrafficShaper.cleanup (ts : TrafficShaper) (s : Sys) :
    Sys × Except TrafficShapingError Unit :=
  match DnctlCommands.flush_pipes s with
  | (s1, Except.error e) => (s1, Except.error e)
  | (s1, Except.ok _) =>
    match PfctlCommands.restore_original_rules s1 with
    | (s2, Except.error e) => (s2, Except.error e)
    | (s2, Except.ok _) => PfctlCommands.disable s2

/-- One timed event (`simulation/src/models.rs`, `struct Events`): an offset
from the epoch (`Duration`, seconds, modelled as `Nat`) plus the new
parameters. -/
structure Events where
  time : Nat
  latency : Nat
  bandwidth : Nat
  packet_loss : ℚ
deriving DecidableEq

/-- `impl Into<ApplyConfig> for Events` (`models.rs` lines 48-56). -/
def Events.toApplyConfig (e : Events) : ApplyConfig :=
  { packet_loss := e.packet_loss, latency := e.latency, max_bandwidth := e.bandwidth }

/-- Manifest-level configuration (`models.rs`, `struct Config`). -/
structure Config where
  packet_loss : ℚ
  latency : Nat
  bandwidth : Nat
  protocol : Protocol
  src_ports : Option (Nat × Nat)
  dst_ports : Option (Nat × Nat)
  report_output : Option Output
deriving DecidableEq

/-- `impl Into<TrafficConfig> for Config` (`models.rs` lines 24-36). -/
def Config.toTrafficConfig (c : Config) : TrafficConfig :=
  { packet_loss := c.packet_loss
    latency := c.latency
    max_bandwidth := c.bandwidth
    protocol := c.protocol
    src_ports := c.src_ports.map (fun p => { start := p.1, stop := p.2 })
    dst_ports := c.dst_ports.map (fun p => { start := p.1, stop := p.2 })
    report_output := c.report_output.getD Output.none }

/-- Session manifest (`models.rs`, `struct Manifest`). -/
structure Manifest where
  config : Config
  events : List Events
deriving DecidableEq

instance exceptDecEq {ε α : Type} [DecidableEq ε] [DecidableEq α] :
    DecidableEq (Except ε α)
  | Except.ok a, Except.ok b =>
    if h : a = b then Decidable.isTrue (congrArg Except.ok h)
    else Decidable.isFalse (fun hh => h (Except.ok.inj hh))
  | Except.error a, Except.error b =>
    if h : a = b then Decidable.isTrue (congrArg Except.error h)
    else Decidable.isFalse (fun hh => h (Except.error.inj hh))
  | Except.ok _, Except.error _ => Decidable.isFalse (fun hh => Except.noConfusion hh)
  | Except.error _, Except.ok _ => Decidable.isFalse (fun hh => Except.noConfusion hh)

/-- Result of one `Driver::poll` call: either the future resolves with the
session result, or it suspends after re-arming its sleep timer for `deadline`. -/
inductive Poll where
  | ready (r : Except TrafficShapingError Unit)
  | pending (deadline : Nat)
deriving DecidableEq

/-- Placeholder event used with `List.getD` at indices that are proven in
bounds (where the Rust indexing cannot panic). -/
def noEvent : Events := { time := 0, latency := 0, bandwidth := 0, packet_loss := 0 }

/-- Tail of `Driver::poll` (`simulation/src/lib.rs` lines 108-117): with the
position already advanced past any applied event, either complete (`pos ==
events.len()`) or re-arm the sleep for `epoch + events[pos].time` (the
`checked_add(..).unwrap()` cannot overflow on `Nat`) and return `Pending`.
The index is in bounds here: the caller reaches this point with `pos ≤
events.length`, and the branch taken requires `pos ≠ events.length`. -/
def Driver.arm (events : List Events) (epoch : Nat) (pos : Nat) (s : Sys) :
    Sys × Option (Nat × Poll) :=
  if pos = events.length then
    (s, Option.some (pos, Poll.ready (Except.ok ())))
  else
    (s, Option.some (pos, Poll.pending (epoch + (events.getD pos noEvent).time)))

/-- `impl Future for Driver` — `poll` (`simulation/src/lib.rs` lines 85-119).
The body first evaluates `&self.events[self.pos]` unconditionally: when `pos`
is out of bounds this indexing panics, modelled by the result `none`.
Otherwise, when the event is due (`now >= epoch + event.time`) it is applied —
an `apply` error resolves the future with that error via `?` — and the
position advances; finally the completion check and timer re-arming run
(`Driver.arm`).  At most one event is applied per poll: the due check is an
`if`, not a loop. -/
def Driver.poll (events : List Events) (epoch : Nat) (shaper : TrafficShaper)
    (pos : Nat) (now : Nat) (s : Sys) : Sys × Option (Nat × Poll) :=
  match events.get? pos with
  | Option.none => (s, Option.none)
  | Option.some event =>
    if epoch + event.time ≤ now then
      match shaper.apply event.toApplyConfig s with
      | (s', Except.error e) => (s', Option.some (pos, Poll.ready (Except.error e)))
      | (s', Except.ok _) => Driver.arm events epoch (pos + 1) s'
    else
      Driver.arm events epoch pos s

/-- Outcome of driving the `Driver` future under a finite schedule of wake-up
times: the poll panicked, the future resolved with `r`, or the wake schedule
ran out while the future was still pending. -/
inductive RunOutcome where
  | panicked
  | finished (r : Except TrafficShapingError Unit)
  | suspended
deriving DecidableEq

/-- Drive the `Driver` future: poll once per wake-up time in `wakes` (the
executor resumes the task, `poll` runs, and a `Pending` result suspends until
the next wake-up), starting from position `pos`.  Returns the final state, the
final position and the outcome. -/
def runDriver (events : List Events) (epoch : Nat) (shaper : TrafficShaper) :
    List Nat → Nat → Sys → Sys × Nat × RunOutcome
  | [], pos, s => (s, pos, RunOutcome.suspended)
  | now :: wakes, pos, s =>
    match Driver.poll events epoch shaper pos now s with
    | (s', Option.none) => (s', pos, RunOutcome.panicked)
    | (s', Option.some (pos', Poll.ready r)) => (s', pos', RunOutcome.finished r)
    | (s', Option.some (pos', Poll.pending _)) => runDriver events epoch shaper wakes pos' s'

/-- Poll the driver `k` times at one and the same instant `now` (the scenario
of a late wake-up with several overdue events), collecting each poll's result.
Stops early on panic or on resolution. -/
def pollIter (events : List Events) (epoch : Nat) (shaper : TrafficShaper) (now : Nat) :
    Nat → Nat → Sys → Sys × Nat × List Poll
  | 0, pos, s => (s, pos, [])
  | Nat.succ k, pos, s =>
    match Driver.poll events epoch shaper pos now s with
    | (s', Option.none) => (s', pos, [])
    | (s', Option.some (pos', Poll.ready r)) => (s', pos', [Poll.ready r])
    | (s', Option.some (pos', Poll.pending d)) =>
      let rest := pollIter events epoch shaper now k pos' s'
      (rest.1, rest.2.1, Poll.pending d :: rest.2.2)

/-- The session object (`simulation/src/lib.rs`, `struct Simulation`). -/
structure Simulation where
  manifest : Manifest
  epoch : Nat
  ts : TrafficShaper

/-- `Simulation::new` (`simulation/src/lib.rs` lines 26-34): converts the
manifest config and stores the caller-supplied epoch. -/
def Simulation.new (manifest : Manifest) (epoch : Nat) : Simulation :=
  { manifest := manifest, epoch := epoch, ts := TrafficShaper.new manifest.config.toTrafficConfig }

/-- `Simulation::start_inner` (`simulation/src/lib.rs` lines 45-56): `enable()`
(its error is wrapped into `SimulationError::SystemError`, which preserves the
underlying error and is not modelled as a separate type), then `self.epoch =
Instant::now()` — the epoch is re-captured as the current time `startTime`,
discarding the constructor argument — and the driver is awaited under the wake
schedule `wakes`. -/
def Simulation.start_inner (sim : Simulation) (startTime : Nat) (wakes : List Nat)
    (s : Sys) : Sys × Simulation × RunOutcome :=
  match sim.ts.enable s with
  | (s1, Except.error e) => (s1, sim, RunOutcome.finished (Except.error e))
  | (s1, Except.ok ts') =>
    let sim' := { sim with epoch := startTime, ts := ts' }
    let r := runDriver sim'.manifest.events sim'.epoch sim'.ts wakes 0 s1
    (r.1, sim', r.2.2)

/-- How `Simulation::start` exits: a panic unwound through it (cleanup is then
never reached), the inner future is still pending (no exit path taken yet), or
it returned `r` to the caller. -/
inductive SessionOutcome where
  | panicked
  | stillPending
  | returned (r : Except TrafficShapingError Unit)
deriving DecidableEq

/-- `Simulation::start` (`simulation/src/lib.rs` lines 35-43): runs
`start_inner`, then always calls `cleanup()` — whose error is only logged —
and surfaces `start_inner`'s result.  A panic propagating out of the awaited
driver (`RunOutcome.panicked`) unwinds past the cleanup call. -/
def Simulation.start (sim : Simulation) (startTime : Nat) (wakes : List Nat)
    (s : Sys) : Sys × Simulation × SessionOutcome :=
  match Simulation.start_inner sim startTime wakes s with
  | (s1, sim', RunOutcome.panicked) => (s1, sim', SessionOutcome.panicked)
  | (s1, sim', RunOutcome.suspended) => (s1, sim', SessionOutcome.stillPending)
  | (s1, sim', RunOutcome.finished r) =>
    let c := sim'.ts.cleanup s1
    (c.1, sim', SessionOutcome.returned r)

/-! ## Concrete fixtures used by counterexamples and witnesses -/

/-- A host state with every external operation succeeding and nothing installed. -/
def sys0 : Sys :=
  { ticks := 0
    outcome := fun _ => Option.none
    trace := []
    pfEnabled := false
    pfRefCount := 0
    pipes := []
    pipeLog := []
    ruleLoads := []
    written := []
    basePolicy := "" }

/-- A minimal valid session configuration. -/
def cfg0 : TrafficConfig :=
  { packet_loss := 0
    latency := 0
    max_bandwidth := 0
    protocol := Protocol.both
    src_ports := Option.none
    dst_ports := Option.none
    report_output := Output.none }

/-- Host state in which the very first external operation (and only it) fails. -/
def flushFailSys : Sys :=
  { sys0 with
    outcome := fun n =>
      if n = 0 then Option.some (TrafficShapingError.commandError "dnctl flush failed")
      else Option.none }

/-- Host state of a host where two sessions hold pf references. -/
def twoRefsSys : Sys := { sys0 with pfEnabled := true, pfRefCount := 2 }

/-- The spec's lateness scenario: two events at offsets 1s and 3s. -/
def lateEvents : List Events :=
  [{ time := 1, latency := 0, bandwidth := 0, packet_loss := 0 },
    { time := 3, latency := 0, bandwidth := 0, packet_loss := 0 }]

/-- A sorted two-event timeline used to witness the ordering guarantee. -/
def c4Events : List Events :=
  [{ time := 0, latency := 5, bandwidth := 100, packet_loss := 2 },
    { time := 2, latency := 7, bandwidth := 50, packet_loss := 5 }]

/-- A minimal manifest-level configuration. -/
def conf0 : Config :=
  { packet_loss := 0
    latency := 0
    bandwidth := 0
    protocol := Protocol.both
    src_ports := Option.none
    dst_ports := Option.none
    report_output := Option.none }

/-- A manifest whose timeline has zero events. -/
def emptyManifest : Manifest := { config := conf0, events := [] }

/-- A manifest with a single event due immediately. -/
def oneEventManifest : Manifest :=
  { config := conf0
    events := [{ time := 0, latency := 0, bandwidth := 0, packet_loss := 0 }] }

/-- Pipe parameters produced by one `TrafficShaper::apply` call for a delta. -/
def applyPipeParams (config : ApplyConfig) : PipeParams :=
  { pipe_num := DEFAULT_PIPE_NUMBER
    bandwidth := Option.some config.max_bandwidth
    delay := Option.some config.latency
    plr := Option.some (config.packet_loss / 100) }

/-- Pipe parameters produced by applying one timeline event. -/
def eventPipeParams (e : Events) : PipeParams := applyPipeParams e.toApplyConfig

/-- Number of `dnctl -f flush` invocations in a command trace.  `flush_pipes`
is the unconditional first command of `TrafficShaper::cleanup` and is invoked
nowhere else, so this counts how many times `cleanup()` was entered. -/
def flushCount (l : List CmdTag) : Nat :=
  (l.filter fun t => decide (t = CmdTag.dnctlFlush)).length

/-- Number of times `cleanup()` was entered in the history recorded by `s`. -/
def cleanupCalls (s : Sys) : Nat := flushCount s.trace

/-- Steps of `TrafficShaper::cleanup` that actually get attempted, as dictated
by the outcome oracle: the chain stops at the first failing step (`dnctl -f
flush`, then `pfctl -f /etc/pf.conf`, then the reference query of `disable`,
then — only when at most one reference is held — `pfctl -d`). -/
def cleanupAttempts (s : Sys) : List CmdTag :=
  match s.outcome s.ticks with
  | Option.some _ => [CmdTag.dnctlFlush]
  | Option.none =>
    match s.outcome (s.ticks + 1) with
    | Option.some _ => [CmdTag.dnctlFlush, CmdTag.pfctlRestore]
    | Option.none =>
      match s.outcome (s.ticks + 2) with
      | Option.some _ => [CmdTag.dnctlFlush, CmdTag.pfctlRestore, CmdTag.pfctlShowRefs]
      | Option.none =>
        if s.pfRefCount ≤ 1 then
          [CmdTag.dnctlFlush, CmdTag.pfctlRestore, CmdTag.pfctlShowRefs,
            CmdTag.pfctlDisableCmd]
        else
          [CmdTag.dnctlFlush, CmdTag.pfctlRestore, CmdTag.pfctlShowRefs]

/-- Result of `TrafficShaper::cleanup` as dictated by the oracle: the error of
the first failing step, `ok` when no attempted step fails. -/
def cleanupResult (s : Sys) : Except TrafficShapingError Unit :=
  match s.outcome s.ticks with
  | Option.some e => Except.error e
  | Option.none =>
    match s.outcome (s.ticks + 1) with
    | Option.some e => Except.error e
    | Option.none =>
      match s.outcome (s.ticks + 2) with
      | Option.some e => Except.error e
      | Option.none =>
        if s.pfRefCount ≤ 1 then
          match s.outcome (s.ticks + 3) with
          | Option.some e => Except.error e
          | Option.none => Except.ok ()
        else Except.ok ()

/-- Records that `TrafficShaper::apply` delivers to the report sink, as a
function of the failure pattern: one record exactly when the limiter update
succeeded, the sink is configured, serialization succeeded, and (for a file
sink) the file was opened at enable time and the write succeeded.  In the
`apply` call the limiter-configure consumes operation index `s.ticks`, the
serialization index `s.ticks + 1` and the sink write index `s.ticks + 2`. -/
def applyWrittenSpec (ts : TrafficShaper) (config : ApplyConfig) (s : Sys) :
    List EventReport :=
  match s.outcome s.ticks with
  | Option.some _ => []
  | Option.none =>
    match ts.config.report_output with
    | Output.none => []
    | Output.stdout =>
      match s.outcome (s.ticks + 1) with
      | Option.some _ => []
      | Option.none =>
        match s.outcome (s.ticks + 2) with
        | Option.some _ => []
        | Option.none =>
          [EventReport.new config.max_bandwidth config.latency config.packet_loss]
    | Output.file _ =>
      match s.outcome (s.ticks + 1) with
      | Option.some _ => []
      | Option.none =>
        match ts.file_handle with
        | Option.none => []
        | Option.some _ =>
          match s.outcome (s.ticks + 2) with
          | Option.some _ => []
          | Option.none =>
            [EventReport.new config.max_bandwidth config.latency config.packet_loss]

/-- C1 counterexample: when the first teardown step (flushing the rate
limiter) fails, `cleanup` performs no further step — the base policy is not
restored and the activation is not released — and returns that first error.
This refutes the claim that the three steps are attempted independently. -/
theorem cleanup_stops_after_flush_failure :
    ((TrafficShaper.new cfg0).cleanup flushFailSys).1.trace = [CmdTag.dnctlFlush] ∧
    ((TrafficShaper.new cfg0).cleanup flushFailSys).2 =
      Except.error (TrafficShapingError.commandError "dnctl flush failed") :=
  ⟨rfl, rfl⟩

/-- Characterization of `TrafficShaper::cleanup`: its trace is the attempted
prefix of the three steps and its result the first failure (helper shared by
several theorems). -/
theorem cleanup_trace_result (ts : TrafficShaper) (s : Sys) :
    (ts.cleanup s).1.trace = s.trace ++ cleanupAttempts s ∧
    (ts.cleanup s).2 = cleanupResult s := by
  simp only [TrafficShaper.cleanup, DnctlCommands.flush_pipes,
    PfctlCommands.restore_original_rules, PfctlCommands.disable, runCmd,
    cleanupAttempts, cleanupResult]
  rcases h0 : s.outcome s.ticks with _ | e0 <;> simp only [h0]
  · rcases h1 : s.outcome (s.ticks + 1) with _ | e1 <;> simp only [h1]
    · rcases h2 : s.outcome (s.ticks + 1 + 1) with _ | e2 <;>
        simp only [show s.ticks + 1 + 1 = s.ticks + 2 from rfl, h2]
      · by_cases hr : s.pfRefCount ≤ 1 <;>
          simp only [hr, if_true, if_false, reduceIte]
        · rcases h3 : s.outcome (s.ticks + 2 + 1) with _ | e3 <;>
            simp only [show s.ticks + 2 + 1 = s.ticks + 3 from rfl, h3] <;>
            simp [List.append_assoc]
        · simp [List.append_assoc]
      · simp [List.append_assoc]
    · simp [List.append_assoc]
  · simp

/-- C1 amended: `TrafficShaper::cleanup` attempts its three teardown steps
strictly in sequence and stops at the first step that fails, returning that
step's error; steps after a failing one are not attempted, and all three run
exactly when no step fails (`cleanupAttempts`/`cleanupResult` spell the
attempted commands and the result out as functions of the failure pattern). -/
theorem cleanup_sequential_until_first_failure (ts : TrafficShaper) (s : Sys) :
    (ts.cleanup s).1.trace = s.trace ++ cleanupAttempts s ∧
    (ts.cleanup s).2 = cleanupResult s :=
  cleanup_trace_result ts s

/-! ## C6 — port-range validation at construction -/

/-- C6: `TrafficConfig::new` accepts the out-of-order source port pair
`(8080, 80)` and stores it unchanged — it only validates the packet-loss
percentage, and the `InvalidPortRange` error the claim promises is never
produced (that variant is defined in the error enum but never constructed;
only the CLI argument parser rejects reversed ranges). -/
theorem trafficConfig_new_accepts_reversed_port_range :
    TrafficConfig.new 0 0 0 Protocol.both
        (Option.some { start := 8080, stop := 80 }) Option.none Output.none =
      Except.ok
        { packet_loss := 0
          latency := 0
          max_bandwidth := 0
          protocol := Protocol.both
          src_ports := Option.some { start := 8080, stop := 80 }
          dst_ports := Option.none
          report_output := Output.none } := by
  decide

/-! ## C7 — empty timeline -/

/-- C7: on a timeline with zero events the very first `Driver::poll` evaluates
`&self.events[0]` with an empty event list — an index-out-of-bounds panic
(modelled by the `none` result) — instead of completing successfully; no
event is applied, and the state is untouched. -/
theorem driver_poll_empty_timeline_panics :
    Driver.poll [] 0 (TrafficShaper.new cfg0) 0 0 sys0 = (sys0, Option.none) :=
  rfl

/-! ## C9 — activation reference counting -/

/-- C9: with two sessions holding references (`pfRefCount = 2`), the third
cleanup step `PfctlCommands::disable` only queries the reference count and
returns: the backend does stay active, but no decrement is ever issued — the
count remains 2 rather than dropping to 1 as the claim (and the function's own
doc comment) state. -/
theorem pfctl_disable_no_decrement_at_two_refs :
    (PfctlCommands.disable twoRefsSys).1.pfRefCount = 2 ∧
    (PfctlCommands.disable twoRefsSys).1.pfEnabled = true ∧
    (PfctlCommands.disable twoRefsSys).1.trace = [CmdTag.pfctlShowRefs] ∧
    (PfctlCommands.disable twoRefsSys).2 = Except.ok () :=
  ⟨rfl, rfl, rfl, rfl⟩

/-! ## C8 — apply result vs. report emission -/

/-- C8: `apply` succeeds exactly when its single limiter-configure call
succeeds — its result is that call's result, so no serialization, write or
earlier file-open failure ever turns `Ok` into `Err` — and when the sink is
configured, exactly one structured record (the delta's bandwidth, latency and
packet loss) reaches the sink immediately after a successful update, as
spelled out by `applyWrittenSpec`. -/
theorem apply_result_is_configure_result (ts : TrafficShaper) (config : ApplyConfig)
    (s : Sys) :
    ((ts.apply config s).2 =
      match s.outcome s.ticks with
      | Option.none => Except.ok ()
      | Option.some e => Except.error e) ∧
    (ts.apply config s).1.written = s.written ++ applyWrittenSpec ts config s := by
  simp only [TrafficShaper.apply, DnctlCommands.configure_pipe, runCmd,
    TrafficShaper.emitReport, softCmd, applyWrittenSpec]
  rcases h0 : s.outcome s.ticks with _ | e0 <;> simp only [h0]
  · rcases hro : ts.config.report_output with _ | _ | path <;> simp only [hro]
    · simp
    · rcases h1 : s.outcome (s.ticks + 1) with _ | e1 <;> simp only [h1]
      · rcases h2 : s.outcome (s.ticks + 2) with _ | e2 <;> simp [h2]
      · simp
    · rcases h1 : s.outcome (s.ticks + 1) with _ | e1 <;> simp only [h1]
      · rcases hfh : ts.file_handle with _ | u <;> simp only [hfh]
        · simp
        · rcases h2 : s.outcome (s.ticks + 2) with _ | e2 <;> simp [h2]
      · simp
  · simp

/-! ## C5 — idempotent enable -/

/-- When every external operation succeeds, `TrafficShaper::enable` succeeds,
installs no policy rules (step 2 creates the pipe before step 3 queries for
it, so the query always observes the pipe as existing and the rule-loading
branch is skipped), leaves the limiter in place, and alters neither the
outcome oracle nor the rule store. -/
theorem enable_success_spec (ts : TrafficShaper) (s : Sys)
    (hsucc : ∀ n, s.outcome n = Option.none) :
    ∃ s' ts',
      ts.enable s = (s', Except.ok ts') ∧
      s'.outcome = s.outcome ∧
      s'.ruleLoads = s.ruleLoads ∧
      DEFAULT_PIPE_NUMBER ∈ s'.pipes := by
  have hpipes : ∀ l : List Nat,
      (if l.contains DEFAULT_PIPE_NUMBER = true then l
        else l ++ [DEFAULT_PIPE_NUMBER]).contains DEFAULT_PIPE_NUMBER = true := by
    intro l
    by_cases hc : l.contains DEFAULT_PIPE_NUMBER = true
    · rw [if_pos hc]
      exact hc
    · rw [if_neg hc]
      simp
  have hmem : ∀ l : List Nat,
      DEFAULT_PIPE_NUMBER ∈
        (if l.contains DEFAULT_PIPE_NUMBER = true then l
          else l ++ [DEFAULT_PIPE_NUMBER]) := by
    intro l
    by_cases hc : l.contains DEFAULT_PIPE_NUMBER = true
    · rw [if_pos hc]
      simpa using hc
    · rw [if_neg hc]
      simp
  simp only [TrafficShaper.enable, PfctlCommands.enable, runCmd,
    DnctlCommands.configure_pipe, DnctlCommands.pipe_exists,
    TrafficShaper.openReport, softCmd, hsucc]
  rcases hro : ts.config.report_output with _ | _ | path <;>
    simp only [hro, hpipes, eq_self_iff_true, if_true, hsucc] <;>
    exact ⟨_, _, rfl, rfl, rfl, hmem _⟩

/-- C5: calling `enable()` twice in sequence on a host where every backend
command succeeds: both calls succeed, after the first call the limiter exists
(so the second call's `pipe_exists` query observes it and skips rule
installation), and in fact no policy-rule load is performed by either call —
in particular no duplicate rules accumulate.  (Rules are installed only if the
backend query made after the limiter is configured reports the limiter absent;
since configuring creates the limiter, that never holds.) -/
theorem enable_twice_no_duplicate_rules (cfg : TrafficConfig) (s : Sys)
    (hsucc : ∀ n, s.outcome n = Option.none) :
    ∃ s₁ ts₁ s₂ ts₂,
      (TrafficShaper.new cfg).enable s = (s₁, Except.ok ts₁) ∧
      ts₁.enable s₁ = (s₂, Except.ok ts₂) ∧
      DEFAULT_PIPE_NUMBER ∈ s₁.pipes ∧
      s₂.ruleLoads = s.ruleLoads := by
  obtain ⟨s₁, ts₁, h1, ho1, hr1, hp1⟩ := enable_success_spec (TrafficShaper.new cfg) s hsucc
  obtain ⟨s₂, ts₂, h2, ho2, hr2, hp2⟩ :=
    enable_success_spec ts₁ s₁ (fun n => by rw [ho1]; exact hsucc n)
  exact ⟨s₁, ts₁, s₂, ts₂, h1, h2, hp1, by rw [hr2, hr1]⟩

/-- C5 witness: the two-enable scenario evaluated on the concrete all-success
host state and the minimal configuration. -/
theorem enable_twice_no_duplicate_rules_witness :
    (∀ n, sys0.outcome n = Option.none) ∧
    (∃ s₁ ts₁ s₂ ts₂,
      (TrafficShaper.new cfg0).enable sys0 = (s₁, Except.ok ts₁) ∧
      ts₁.enable s₁ = (s₂, Except.ok ts₂) ∧
      DEFAULT_PIPE_NUMBER ∈ s₁.pipes ∧
      s₂.ruleLoads = sys0.ruleLoads) :=
  ⟨fun _ => rfl, enable_twice_no_duplicate_rules cfg0 sys0 (fun _ => rfl)⟩

/-! ## Helper lemmas about traces and the state effects of each operation -/

theorem flushCount_nil : flushCount [] = 0 := rfl

theorem flushCount_append (l₁ l₂ : List CmdTag) :
    flushCount (l₁ ++ l₂) = flushCount l₁ + flushCount l₂ := by
  simp [flushCount]

theorem flushCount_cons (t : CmdTag) (l : List CmdTag) :
    flushCount (t :: l) = (if t = CmdTag.dnctlFlush then 1 else 0) + flushCount l := by
  by_cases h : t = CmdTag.dnctlFlush <;>
    simp [flushCount, List.filter_cons, h, Nat.add_comm]

/-- State effects of one `TrafficShaper::apply` call: the oracle is untouched,
no cleanup is entered, and the pipe log gains exactly the configured delta when
(and only when) the limiter-configure succeeds, which is also exactly when the
call returns `Ok`. -/
theorem apply_state (ts : TrafficShaper) (config : ApplyConfig) (s : Sys) :
    (ts.apply config s).1.outcome = s.outcome ∧
    cleanupCalls (ts.apply config s).1 = cleanupCalls s ∧
    ((s.outcome s.ticks = Option.none ∧ (ts.apply config s).2 = Except.ok () ∧
        (ts.apply config s).1.pipeLog = s.pipeLog ++ [applyPipeParams config]) ∨
      (∃ e, s.outcome s.ticks = Option.some e ∧ (ts.apply config s).2 = Except.error e ∧
        (ts.apply config s).1.pipeLog = s.pipeLog)) := by
  simp only [TrafficShaper.apply, DnctlCommands.configure_pipe, runCmd,
    TrafficShaper.emitReport, softCmd, applyPipeParams]
  rcases h0 : s.outcome s.ticks with _ | e0 <;> simp only [h0]
  · rcases hro : ts.config.report_output with _ | _ | path <;> simp only [hro]
    · simp [cleanupCalls, flushCount_append, flushCount_cons, flushCount_nil]
    · rcases h1 : s.outcome (s.ticks + 1) with _ | e1 <;> simp only [h1]
      · rcases h2 : s.outcome (s.ticks + 1 + 1) with _ | e2 <;>
          simp [h2, cleanupCalls, flushCount_append, flushCount_cons, flushCount_nil]
      · simp [cleanupCalls, flushCount_append, flushCount_cons, flushCount_nil]
    · rcases h1 : s.outcome (s.ticks + 1) with _ | e1 <;> simp only [h1]
      · rcases hfh : ts.file_handle with _ | u <;> simp only [hfh]
        · simp [cleanupCalls, flushCount_append, flushCount_cons, flushCount_nil]
        · rcases h2 : s.outcome (s.ticks + 1 + 1) with _ | e2 <;>
            simp [h2, cleanupCalls, flushCount_append, flushCount_cons, flushCount_nil]
      · simp [cleanupCalls, flushCount_append, flushCount_cons, flushCount_nil]
  · simp [cleanupCalls, flushCount_append, flushCount_cons, flushCount_nil]

/-- Exhaustive case analysis of one `Driver::poll` call: either the position is
out of bounds and the indexing panics with the state untouched, or the poll
returns, having advanced past at most one event — an event is applied (and
logged) only when its deadline `epoch + offset` has elapsed at `now`, a
`ready (ok)` result means the whole timeline is done, and a `pending d` result
re-arms the timer exactly for the next unapplied event's deadline. -/
theorem poll_cases (events : List Events) (epoch : Nat) (shaper : TrafficShaper)
    (pos : Nat) (now : Nat) (s : Sys) :
    (Driver.poll events epoch shaper pos now s = (s, Option.none) ∧
      events.length ≤ pos) ∨
    (∃ s' pos' p,
      Driver.poll events epoch shaper pos now s = (s', Option.some (pos', p)) ∧
      pos < events.length ∧
      (pos' = pos ∨ pos' = pos + 1) ∧
      pos' ≤ events.length ∧
      s'.outcome = s.outcome ∧
      cleanupCalls s' = cleanupCalls s ∧
      s'.pipeLog = s.pipeLog ++ ((events.drop pos).take (pos' - pos)).map eventPipeParams ∧
      (pos' = pos + 1 → epoch + (events.getD pos noEvent).time ≤ now) ∧
      (p = Poll.ready (Except.ok ()) → pos' = events.length) ∧
      (∀ d, p = Poll.pending d → pos' < events.length ∧
        d = epoch + (events.getD pos' noEvent).time) ∧
      (epoch + (events.getD pos noEvent).time ≤ now → s.outcome s.ticks = Option.none →
        pos' = pos + 1 ∧
        (pos' = events.length → p = Poll.ready (Except.ok ())) ∧
        (pos' ≠ events.length →
          p = Poll.pending (epoch + (events.getD pos' noEvent).time)))) := by
  rcases hev : events[pos]? with _ | ev
  · left
    constructor
    · simp [Driver.poll, hev]
    · exact List.getElem?_eq_none_iff.mp hev
  · right
    obtain ⟨hlt, hget⟩ := List.getElem?_eq_some_iff.mp hev
    have hgetD : events.getD pos noEvent = ev := by
      simp [List.getD_eq_getElem?_getD, hev]
    have htake1 : (events.drop pos).take 1 = [ev] := by
      rw [List.drop_eq_getElem_cons hlt, hget]
      simp
    by_cases hdue : epoch + ev.time ≤ now
    · obtain ⟨ho, hc, hcases⟩ := apply_state shaper ev.toApplyConfig s
      rcases hap : shaper.apply ev.toApplyConfig s with ⟨s₁, e | u⟩ <;>
        rw [hap] at ho hc hcases <;> simp only at ho hc hcases
      · -- apply failed: the future resolves with the error, position unchanged
        have hpoll : Driver.poll events epoch shaper pos now s =
            (s₁, Option.some (pos, Poll.ready (Except.error e))) := by
          simp [Driver.poll, hev, if_pos hdue, hap]
        rcases hcases with ⟨_, habs, _⟩ | ⟨e', hor, herr, hlog⟩
        · exact absurd habs (by simp)
        · refine ⟨s₁, pos, Poll.ready (Except.error e), hpoll, hlt,
            Or.inl rfl, Nat.le_of_lt hlt, ho, hc, by simpa using hlog, ?_, ?_, ?_, ?_⟩
          · intro h
            omega
          · intro h
            exact absurd (Poll.ready.inj h) (by simp)
          · intro d hd
            exact absurd hd (by simp)
          · intro _ hnone
            rw [hnone] at hor
            exact absurd hor (by simp)
      · -- apply succeeded: position advances, then complete or re-arm
        rcases hcases with ⟨_, _, hlog⟩ | ⟨e', _, habs, _⟩
        · by_cases hend : pos + 1 = events.length
          · have hpoll : Driver.poll events epoch shaper pos now s =
                (s₁, Option.some (pos + 1, Poll.ready (Except.ok ()))) := by
              simp [Driver.poll, hev, if_pos hdue, hap, Driver.arm, if_pos hend]
            refine ⟨s₁, pos + 1, Poll.ready (Except.ok ()), hpoll, hlt, Or.inr rfl,
              by omega, ho, hc, ?_, fun _ => hgetD ▸ hdue, fun _ => hend, ?_,
              fun _ _ => ⟨rfl, fun _ => rfl, fun h => absurd hend h⟩⟩
            · simpa [Nat.add_sub_cancel_left, htake1, eventPipeParams] using hlog
            · intro d hd
              exact absurd hd (by simp)
          · have hpoll : Driver.poll events epoch shaper pos now s =
                (s₁, Option.some (pos + 1,
                  Poll.pending (epoch + (events.getD (pos + 1) noEvent).time))) := by
              simp [Driver.poll, hev, if_pos hdue, hap, Driver.arm, if_neg hend]
            refine ⟨s₁, pos + 1,
              Poll.pending (epoch + (events.getD (pos + 1) noEvent).time),
              hpoll, hlt, Or.inr rfl, by omega, ho, hc, ?_,
              fun _ => hgetD ▸ hdue, ?_, ?_,
              fun _ _ => ⟨rfl, fun h => absurd h hend, fun _ => rfl⟩⟩
            · simpa [Nat.add_sub_cancel_left, htake1, eventPipeParams] using hlog
            · intro h
              exact absurd h (by simp)
            · intro d hd
              exact ⟨by omega, (Poll.pending.inj hd).symm⟩
        · exact absurd habs (by simp)
    · have hne : pos ≠ events.length := Nat.ne_of_lt hlt
      have hpoll : Driver.poll events epoch shaper pos now s =
          (s, Option.some (pos,
            Poll.pending (epoch + (events.getD pos noEvent).time))) := by
        simp [Driver.poll, hev, if_neg hdue, Driver.arm, if_neg hne]
      refine ⟨s, pos, Poll.pending (epoch + (events.getD pos noEvent).time),
        hpoll, hlt, Or.inl rfl, Nat.le_of_lt hlt, rfl, rfl, by simp, ?_, ?_, ?_, ?_⟩
      · intro h
        omega
      · intro h
        exact absurd h (by simp)
      · intro d hd
        exact ⟨hlt, (Poll.pending.inj hd).symm⟩
      · intro h _
        exact absurd (hgetD ▸ h) hdue

/-- Splicing two contiguous applied segments of the timeline. -/
theorem take_drop_chain (events : List Events) (pos pos' k : Nat)
    (h1 : pos ≤ pos') (h2 : pos' ≤ k) :
    (events.drop pos).take (pos' - pos) ++ (events.drop pos').take (k - pos') =
      (events.drop pos).take (k - pos) := by
  have hk : k - pos = (pos' - pos) + (k - pos') := by omega
  rw [hk, List.take_add]
  congr 1
  rw [List.drop_drop]
  congr 2
  omega

/-- Invariant of driving the scheduler under an arbitrary finite wake
schedule, starting at position `pos ≤ length`: the position never decreases
and never passes the end; the oracle and the cleanup count are untouched; the
pipe log gains exactly the contiguous timeline segment `events[pos ..
finalPos)` in list order; every event of that segment had some wake time at or
after its deadline `epoch + offset`; a `finished (ok)` outcome means the whole
timeline was applied; and with `pos` in bounds the indexing never panics. -/
theorem runDriver_spec (events : List Events) (epoch : Nat) (shaper : TrafficShaper) :
    ∀ (wakes : List Nat) (pos : Nat) (s : Sys), pos ≤ events.length →
      pos ≤ (runDriver events epoch shaper wakes pos s).2.1 ∧
      (runDriver events epoch shaper wakes pos s).2.1 ≤ events.length ∧
      (runDriver events epoch shaper wakes pos s).1.outcome = s.outcome ∧
      cleanupCalls (runDriver events epoch shaper wakes pos s).1 = cleanupCalls s ∧
      (runDriver events epoch shaper wakes pos s).1.pipeLog =
        s.pipeLog ++ ((events.drop pos).take
          ((runDriver events epoch shaper wakes pos s).2.1 - pos)).map eventPipeParams ∧
      (∀ i, pos ≤ i → i < (runDriver events epoch shaper wakes pos s).2.1 →
        ∃ t ∈ wakes, epoch + (events.getD i noEvent).time ≤ t) ∧
      ((runDriver events epoch shaper wakes pos s).2.2 =
          RunOutcome.finished (Except.ok ()) →
        (runDriver events epoch shaper wakes pos s).2.1 = events.length) ∧
      (pos < events.length →
        (runDriver events epoch shaper wakes pos s).2.2 ≠ RunOutcome.panicked)
  | [], pos, s, hpos => by
    refine ⟨Nat.le_refl pos, hpos, rfl, rfl, by simp [runDriver], ?_, by simp [runDriver],
      by simp [runDriver]⟩
    intro i h1 h2
    simp only [runDriver] at h2
    omega
  | now :: wakes, pos, s, hpos => by
    rcases poll_cases events epoch shaper pos now s with
      ⟨hpoll, hlen⟩ |
      ⟨s', pos', p, hpoll, hlt, hstep, hle, ho, hc, hlog, htime, hready, hpend, _⟩
    · -- out-of-bounds indexing: only reachable with pos = length
      have hrun : runDriver events epoch shaper (now :: wakes) pos s =
          (s, pos, RunOutcome.panicked) := by
        simp [runDriver, hpoll]
      rw [hrun]
      dsimp only
      refine ⟨Nat.le_refl pos, hpos, rfl, rfl, by simp, ?_, by simp, ?_⟩
      · intro i h1 h2
        omega
      · intro h
        omega
    · rcases p with r | d
      · -- the future resolved at this wake-up
        have hrun : runDriver events epoch shaper (now :: wakes) pos s =
            (s', pos', RunOutcome.finished r) := by
          simp [runDriver, hpoll]
        rw [hrun]
        dsimp only
        have hposle : pos ≤ pos' := by rcases hstep with h | h <;> omega
        refine ⟨hposle, hle, ho, hc, hlog, ?_, ?_, by simp⟩
        · intro i h1 h2
          have hi : i = pos ∧ pos' = pos + 1 := by rcases hstep with h | h <;> omega
          refine ⟨now, List.mem_cons_self now wakes, ?_⟩
          rw [hi.1]
          exact htime hi.2
        · intro h
          exact hready (by rw [RunOutcome.finished.inj h])
      · -- still pending: the sleep was re-armed, the executor polls again later
        have hrun : runDriver events epoch shaper (now :: wakes) pos s =
            runDriver events epoch shaper wakes pos' s' := by
          simp [runDriver, hpoll]
        obtain ⟨ih1, ih2, ih3, ih4, ih5, ih6, ih7, ih8⟩ :=
          runDriver_spec events epoch shaper wakes pos' s' hle
        rw [hrun]
        have hposle : pos ≤ pos' := by rcases hstep with h | h <;> omega
        refine ⟨Nat.le_trans hposle ih1, ih2, ih3.trans ho, ih4.trans hc, ?_, ?_, ih7, ?_⟩
        · rw [ih5, hlog, List.append_assoc, ← List.map_append,
            take_drop_chain events pos pos' _ hposle ih1]
        · intro i h1 h2
          by_cases hi : i < pos'
          · have hieq : i = pos ∧ pos' = pos + 1 := by rcases hstep with h | h <;> omega
            refine ⟨now, List.mem_cons_self now wakes, ?_⟩
            rw [hieq.1]
            exact htime hieq.2
          · obtain ⟨t, ht, hdead⟩ := ih6 i (Nat.le_of_not_lt hi) h2
            exact ⟨t, List.mem_cons_of_mem now ht, hdead⟩
        · intro _
          exact ih8 (hpend d rfl).1

theorem getD_of_lt (events : List Events) (i : Nat) (h : i < events.length) :
    events.getD i noEvent = events[i] := by
  rw [List.getD_eq_getElem?_getD, List.getElem?_eq_getElem h]
  rfl

theorem map_drop_cons {α : Type} (f : Events → α) (events : List Events) (i : Nat)
    (h : i < events.length) :
    (events.map f).drop i = f events[i] :: (events.map f).drop (i + 1) := by
  rw [List.drop_eq_getElem_cons (by simpa using h)]
  simp

/-- Draining an entirely-overdue timeline: polled once per remaining event at
one and the same instant `now`, with every deadline elapsed and every external
operation succeeding, the scheduler applies exactly one event per poll, in
list order, until the whole timeline is applied; every poll but the last
re-arms the sleep for the (already elapsed) deadline of the next event and
suspends, and the last poll resolves the future successfully. -/
theorem pollIter_drains (events : List Events) (epoch : Nat) (shaper : TrafficShaper)
    (now : Nat) (hdue : ∀ e ∈ events, epoch + e.time ≤ now) :
    ∀ (k pos : Nat) (s : Sys), pos + k = events.length →
      (∀ n, s.outcome n = Option.none) →
      (pollIter events epoch shaper now k pos s).2.1 = events.length ∧
      (pollIter events epoch shaper now k pos s).1.pipeLog =
        s.pipeLog ++ (events.drop pos).map eventPipeParams ∧
      (pollIter events epoch shaper now k pos s).2.2 =
        ((events.drop (pos + 1)).map (fun e => Poll.pending (epoch + e.time))) ++
          (if k = 0 then [] else [Poll.ready (Except.ok ())])
  | 0, pos, s, hk, _ => by
    have hpos : pos = events.length := by omega
    have hdrop : events.drop (pos + 1) = [] := List.drop_eq_nil_of_le (by omega)
    refine ⟨by simp [pollIter, hpos], ?_, ?_⟩
    · simp [pollIter, hpos, List.drop_length]
    · simp [pollIter, hdrop]
  | Nat.succ k, pos, s, hk, hsucc => by
    have hlt : pos < events.length := by omega
    rcases poll_cases events epoch shaper pos now s with ⟨_, hlen⟩ |
      ⟨s', pos', p, hpoll, _, _, hle, ho, _, hlog, _, _, hpend, hforce⟩
    · omega
    · have hdueP : epoch + (events.getD pos noEvent).time ≤ now := by
        rw [getD_of_lt events pos hlt]
        exact hdue _ (List.getElem_mem hlt)
      obtain ⟨hadv, hreadyF, hpendF⟩ := hforce hdueP (hsucc s.ticks)
      subst hadv
      have hdropcons : events.drop pos = events[pos] :: events.drop (pos + 1) :=
        List.drop_eq_getElem_cons hlt
      have htake1 : (events.drop pos).take 1 = [events[pos]] := by
        rw [hdropcons]
        rfl
      have hlogP : s'.pipeLog = s.pipeLog ++ [eventPipeParams events[pos]] := by
        rw [hlog]
        simp [htake1]
      by_cases hend : pos + 1 = events.length
      · have hp : p = Poll.ready (Except.ok ()) := hreadyF (by omega)
        have hiter : pollIter events epoch shaper now (k + 1) pos s =
            (s', pos + 1, [Poll.ready (Except.ok ())]) := by
          simp [pollIter, hpoll, hp]
        rw [hiter]
        dsimp only
        have hdrop1 : events.drop (pos + 1) = [] := by
          rw [hend]
          exact List.drop_length events
        refine ⟨by omega, ?_, ?_⟩
        · rw [hlogP, hdropcons]
          simp [hdrop1]
        · simp [hdrop1]
      · have hp : p = Poll.pending (epoch + (events.getD (pos + 1) noEvent).time) :=
          hpendF (by omega)
        have hiter : pollIter events epoch shaper now (k + 1) pos s =
            ((pollIter events epoch shaper now k (pos + 1) s').1,
              (pollIter events epoch shaper now k (pos + 1) s').2.1,
              Poll.pending (epoch + (events.getD (pos + 1) noEvent).time) ::
                (pollIter events epoch shaper now k (pos + 1) s').2.2) := by
          simp [pollIter, hpoll, hp]
        obtain ⟨ih1, ih2, ih3⟩ := pollIter_drains events epoch shaper now hdue k (pos + 1)
          s' (by omega) (fun n => by rw [ho]; exact hsucc n)
        rw [hiter]
        dsimp only
        have hlt1 : pos + 1 < events.length := by omega
        have hk0 : k ≠ 0 := by omega
        refine ⟨ih1, ?_, ?_⟩
        · rw [ih2, hlogP, List.append_assoc]
          congr 1
          simp [map_drop_cons eventPipeParams events pos hlt]
        · rw [ih3, if_neg hk0, getD_of_lt events (pos + 1) hlt1]
          simp [map_drop_cons (fun e => Poll.pending (epoch + e.time)) events (pos + 1) hlt1]

/-! ## C3 — handling of several simultaneously due events -/

/-- C3 counterexample: with the spec's own lateness scenario — events at
offsets 1s and 3s, epoch 0, woken only at `now = 10` — a single wake-up
(`Driver::poll` call) applies only the first overdue event and then suspends
again (re-arming the already-elapsed deadline 3), rather than applying all
overdue events within that one resumption with no intervening suspension. -/
theorem poll_applies_one_of_two_overdue_events :
    (Driver.poll lateEvents 0 (TrafficShaper.new cfg0) 0 10 sys0).2 =
      Option.some (1, Poll.pending 3) ∧
    (Driver.poll lateEvents 0 (TrafficShaper.new cfg0) 0 10 sys0).1.pipeLog =
      [eventPipeParams { time := 1, latency := 0, bandwidth := 0, packet_loss := 0 }] := by
  constructor <;> rfl

/-- C3 amended: every wake-up applies at most one due event; when the
scheduler wakes late with several events overdue it applies exactly one of
them per poll, in list order, re-arming its sleep each time for the next
event's (already elapsed) deadline and returning `Pending`, so that the
overdue events are applied one per wake-up across immediately consecutive
resumptions — after `length` such polls at the same instant all events have
been applied, every intermediate poll result was a `pending` with an elapsed
deadline, and the final poll resolves the session successfully. -/
theorem scheduler_at_most_one_event_per_wakeup (events : List Events)
    (epoch now : Nat) (shaper : TrafficShaper) (s : Sys)
    (hne : events ≠ [])
    (hdue : ∀ e ∈ events, epoch + e.time ≤ now)
    (hsucc : ∀ n, s.outcome n = Option.none) :
    (∀ (pos₁ now₁ : Nat) (s₁ : Sys),
      ((Driver.poll events epoch shaper pos₁ now₁ s₁).1.pipeLog).length ≤
        s₁.pipeLog.length + 1) ∧
    (pollIter events epoch shaper now events.length 0 s).2.1 = events.length ∧
    (pollIter events epoch shaper now events.length 0 s).1.pipeLog =
      s.pipeLog ++ events.map eventPipeParams ∧
    (pollIter events epoch shaper now events.length 0 s).2.2 =
      ((events.drop 1).map (fun e => Poll.pending (epoch + e.time))) ++
        [Poll.ready (Except.ok ())] := by
  obtain ⟨h1, h2, h3⟩ :=
    pollIter_drains events epoch shaper now hdue events.length 0 s (by omega) hsucc
  refine ⟨?_, h1, by simpa using h2, ?_⟩
  · intro pos₁ now₁ s₁
    rcases poll_cases events epoch shaper pos₁ now₁ s₁ with ⟨hpoll, _⟩ |
      ⟨s', pos', p, hpoll, _, hstep, _, _, _, hlog, _, _, _, _⟩
    · rw [hpoll]
      dsimp only
      omega
    · rw [hpoll]
      dsimp only
      rw [hlog]
      have hd : pos' - pos₁ ≤ 1 := by rcases hstep with h | h <;> omega
      simp only [List.length_append, List.length_map, List.length_take]
      omega
  · rw [h3, if_neg (fun h => hne (List.length_eq_zero.mp h))]

/-- C3 witness: the amended behaviour on the concrete lateness scenario
(events at offsets 1s and 3s, woken at 10s, all commands succeeding). -/
theorem scheduler_at_most_one_event_per_wakeup_witness :
    (lateEvents ≠ [] ∧ (∀ e ∈ lateEvents, 0 + e.time ≤ 10) ∧
      (∀ n, sys0.outcome n = Option.none)) ∧
    ((∀ (pos₁ now₁ : Nat) (s₁ : Sys),
      ((Driver.poll lateEvents 0 (TrafficShaper.new cfg0) pos₁ now₁ s₁).1.pipeLog).length ≤
        s₁.pipeLog.length + 1) ∧
    (pollIter lateEvents 0 (TrafficShaper.new cfg0) 10 lateEvents.length 0 sys0).2.1 =
      lateEvents.length ∧
    (pollIter lateEvents 0 (TrafficShaper.new cfg0) 10 lateEvents.length 0 sys0).1.pipeLog =
      sys0.pipeLog ++ lateEvents.map eventPipeParams ∧
    (pollIter lateEvents 0 (TrafficShaper.new cfg0) 10 lateEvents.length 0 sys0).2.2 =
      ((lateEvents.drop 1).map (fun e => Poll.pending (0 + e.time))) ++
        [Poll.ready (Except.ok ())]) :=
  ⟨⟨by decide, by decide, fun _ => rfl⟩,
    scheduler_at_most_one_event_per_wakeup lateEvents 0 10 (TrafficShaper.new cfg0) sys0
      (by decide) (by decide) (fun _ => rfl)⟩

/-! ## C4 — ordering, at-most-once, never-early, never-skipped -/

/-- C4: for any timeline sorted by non-decreasing offset, under an arbitrary
wake schedule the scheduler applies events strictly in list order and each at
most once (the pipe log is exactly the image of the timeline prefix
`events[0 .. finalPos)`), never applies an event before some wake-up reached
its deadline `epoch + offset`, and — however late the wake-ups come — skips
nothing: a successful completion means every event was applied. -/
theorem scheduler_in_order_at_most_once_never_early (events : List Events)
    (epoch : Nat) (shaper : TrafficShaper) (wakes : List Nat) (s : Sys)
    (_hsort : List.Pairwise (fun e₁ e₂ => e₁.time ≤ e₂.time) events) :
    (runDriver events epoch shaper wakes 0 s).2.1 ≤ events.length ∧
    (runDriver events epoch shaper wakes 0 s).1.pipeLog =
      s.pipeLog ++
        ((events.take (runDriver events epoch shaper wakes 0 s).2.1).map eventPipeParams) ∧
    (∀ i, i < (runDriver events epoch shaper wakes 0 s).2.1 →
      ∃ t ∈ wakes, epoch + (events.getD i noEvent).time ≤ t) ∧
    ((runDriver events epoch shaper wakes 0 s).2.2 = RunOutcome.finished (Except.ok ()) →
      (runDriver events epoch shaper wakes 0 s).2.1 = events.length) := by
  obtain ⟨_, h2, _, _, h5, h6, h7, _⟩ :=
    runDriver_spec events epoch shaper wakes 0 s (Nat.zero_le _)
  exact ⟨h2, by simpa using h5, fun i hi => h6 i (Nat.zero_le i) hi, h7⟩

/-- C4 witness: the ordering guarantee on a concrete sorted two-event timeline
with wake-ups at 1 and 4. -/
theorem scheduler_in_order_at_most_once_never_early_witness :
    (List.Pairwise (fun e₁ e₂ => e₁.time ≤ e₂.time) c4Events) ∧
    ((runDriver c4Events 0 (TrafficShaper.new cfg0) [1, 4] 0 sys0).2.1 ≤ c4Events.length ∧
    (runDriver c4Events 0 (TrafficShaper.new cfg0) [1, 4] 0 sys0).1.pipeLog =
      sys0.pipeLog ++
        ((c4Events.take
          (runDriver c4Events 0 (TrafficShaper.new cfg0) [1, 4] 0 sys0).2.1).map
            eventPipeParams) ∧
    (∀ i, i < (runDriver c4Events 0 (TrafficShaper.new cfg0) [1, 4] 0 sys0).2.1 →
      ∃ t ∈ [1, 4], 0 + (c4Events.getD i noEvent).time ≤ t) ∧
    ((runDriver c4Events 0 (TrafficShaper.new cfg0) [1, 4] 0 sys0).2.2 =
        RunOutcome.finished (Except.ok ()) →
      (runDriver c4Events 0 (TrafficShaper.new cfg0) [1, 4] 0 sys0).2.1 =
        c4Events.length)) :=
  ⟨by decide,
    scheduler_in_order_at_most_once_never_early c4Events 0 (TrafficShaper.new cfg0)
      [1, 4] sys0 (by decide)⟩

/-! ## C2 — the session driver always cleans up and keeps the original result -/

/-- `TrafficShaper::enable` never enters cleanup and leaves the oracle as it
found it, on every path (success or failure of any of its commands). -/
theorem enable_effects (ts : TrafficShaper) (s : Sys) :
    (ts.enable s).1.outcome = s.outcome ∧
    cleanupCalls (ts.enable s).1 = cleanupCalls s := by
  have hpipes : ∀ l : List Nat,
      (if l.contains DEFAULT_PIPE_NUMBER = true then l
        else l ++ [DEFAULT_PIPE_NUMBER]).contains DEFAULT_PIPE_NUMBER = true := by
    intro l
    by_cases hc : l.contains DEFAULT_PIPE_NUMBER = true
    · rw [if_pos hc]
      exact hc
    · rw [if_neg hc]
      simp
  simp only [TrafficShaper.enable, PfctlCommands.enable, runCmd,
    DnctlCommands.configure_pipe, DnctlCommands.pipe_exists,
    TrafficShaper.openReport, softCmd]
  rcases h0 : s.outcome s.ticks with _ | e0 <;> simp only [h0]
  · rcases h1 : s.outcome (s.ticks + 1) with _ | e1 <;> simp only [h1]
    · rcases h2 : s.outcome (s.ticks + 1 + 1) with _ | e2 <;> simp only [h2]
      · simp only [hpipes, eq_self_iff_true, if_true]
        rcases hro : ts.config.report_output with _ | _ | path <;> simp only [hro]
        · simp [cleanupCalls, flushCount_append, flushCount_cons, flushCount_nil]
        · simp [cleanupCalls, flushCount_append, flushCount_cons, flushCount_nil]
        · rcases h3 : s.outcome (s.ticks + 1 + 1 + 1) with _ | e3 <;>
            simp [h3, cleanupCalls, flushCount_append, flushCount_cons, flushCount_nil]
      · simp [cleanupCalls, flushCount_append, flushCount_cons, flushCount_nil]
    · simp [cleanupCalls, flushCount_append, flushCount_cons, flushCount_nil]
  · simp [cleanupCalls, flushCount_append, flushCount_cons, flushCount_nil]

/-- Whatever fails, `cleanup`'s attempted step list always begins with (and
contains exactly one) `dnctl -f flush`. -/
theorem flushCount_cleanupAttempts (s : Sys) : flushCount (cleanupAttempts s) = 1 := by
  unfold cleanupAttempts
  rcases h0 : s.outcome s.ticks with _ | e0 <;> simp only [h0]
  · rcases h1 : s.outcome (s.ticks + 1) with _ | e1 <;> simp only [h1]
    · rcases h2 : s.outcome (s.ticks + 2) with _ | e2 <;> simp only [h2]
      · by_cases hr : s.pfRefCount ≤ 1 <;>
          simp [hr, flushCount_cons, flushCount_nil]
      · simp [flushCount_cons, flushCount_nil]
    · simp [flushCount_cons, flushCount_nil]
  · simp [flushCount_cons, flushCount_nil]

/-- One `cleanup()` call is entered exactly once, regardless of which of its
steps fail. -/
theorem cleanup_adds_one_flush (ts : TrafficShaper) (s : Sys) :
    cleanupCalls (ts.cleanup s).1 = cleanupCalls s + 1 := by
  have h := (cleanup_trace_result ts s).1
  unfold cleanupCalls
  rw [h, flushCount_append]
  rw [show flushCount (cleanupAttempts s) = 1 from flushCount_cleanupAttempts s]

/-- `start_inner` (enable + scheduler) never enters cleanup itself and — for a
nonempty timeline — never panics. -/
theorem start_inner_effects (sim : Simulation) (startTime : Nat) (wakes : List Nat)
    (s : Sys) (hne : sim.manifest.events ≠ []) :
    cleanupCalls (sim.start_inner startTime wakes s).1 = cleanupCalls s ∧
    (sim.start_inner startTime wakes s).2.2 ≠ RunOutcome.panicked := by
  obtain ⟨heo, hec⟩ := enable_effects sim.ts s
  rcases hen : sim.ts.enable s with ⟨s₁, e' | ts'⟩ <;>
    rw [hen] at heo hec <;> dsimp only at heo hec <;>
    simp only [Simulation.start_inner, hen]
  · exact ⟨hec, by simp⟩
  · obtain ⟨_, _, _, hdc, _, _, _, hnp⟩ :=
      runDriver_spec sim.manifest.events startTime ts' wakes 0 s₁ (Nat.zero_le _)
    exact ⟨hdc.trans hec, fun h => hnp (List.length_pos.mpr hne) h⟩

/-- C2 counterexample: for the manifest with an empty timeline (enable
succeeding), `Simulation::start` panics inside the driver's first poll and the
panic unwinds past the cleanup call — `cleanup()` is invoked zero times, not
exactly once, on that exit path. -/
theorem session_empty_timeline_skips_cleanup :
    ((Simulation.new emptyManifest 0).start 0 [0] sys0).2.2 = SessionOutcome.panicked ∧
    cleanupCalls ((Simulation.new emptyManifest 0).start 0 [0] sys0).1 = 0 := by
  constructor <;> rfl

/-- C2 amended: for every manifest whose timeline is nonempty, the session
driver never panics, and whenever `Simulation::start` returns to the caller
(exit paths: enable failed, an apply failed mid-timeline, or the timeline
completed) it has invoked `cleanup()` exactly once, and the returned result is
exactly the one `start_inner` produced — the original enable/apply outcome,
never an error substituted by cleanup (whose failures are only logged). -/
theorem session_cleanup_exactly_once_original_result (m : Manifest)
    (e startTime : Nat) (wakes : List Nat) (s : Sys) (hne : m.events ≠ []) :
    ((Simulation.new m e).start startTime wakes s).2.2 ≠ SessionOutcome.panicked ∧
    (∀ r, ((Simulation.new m e).start startTime wakes s).2.2 =
        SessionOutcome.returned r →
      cleanupCalls ((Simulation.new m e).start startTime wakes s).1 =
          cleanupCalls s + 1 ∧
      ((Simulation.new m e).start_inner startTime wakes s).2.2 =
        RunOutcome.finished r) := by
  obtain ⟨hcc, hnp⟩ := start_inner_effects (Simulation.new m e) startTime wakes s hne
  rcases hinner : (Simulation.new m e).start_inner startTime wakes s with ⟨s₁, sim', out⟩
  rw [hinner] at hcc hnp
  rcases out with _ | r₀ | _
  · exact absurd rfl hnp
  · have hstart : (Simulation.new m e).start startTime wakes s =
        ((sim'.ts.cleanup s₁).1, sim', SessionOutcome.returned r₀) := by
      simp [Simulation.start, hinner]
    rw [hstart]
    dsimp only
    refine ⟨by simp, ?_⟩
    intro r hr
    rw [← SessionOutcome.returned.inj hr]
    exact ⟨by rw [cleanup_adds_one_flush, hcc], rfl⟩
  · have hstart : (Simulation.new m e).start startTime wakes s =
        (s₁, sim', SessionOutcome.stillPending) := by
      simp [Simulation.start, hinner]
    rw [hstart]
    dsimp only
    exact ⟨by simp, fun r hr => absurd hr (by simp)⟩

/-- C2 witness: the amended guarantee on a one-event manifest driven to
completion by a single wake-up at the epoch. -/
theorem session_cleanup_exactly_once_original_result_witness :
    (oneEventManifest.events ≠ []) ∧
    (((Simulation.new oneEventManifest 0).start 0 [0] sys0).2.2 ≠
        SessionOutcome.panicked ∧
    (∀ r, ((Simulation.new oneEventManifest 0).start 0 [0] sys0).2.2 =
        SessionOutcome.returned r →
      cleanupCalls ((Simulation.new oneEventManifest 0).start 0 [0] sys0).1 =
          cleanupCalls sys0 + 1 ∧
      ((Simulation.new oneEventManifest 0).start_inner 0 [0] sys0).2.2 =
        RunOutcome.finished r)) :=
  ⟨by decide,
    session_cleanup_exactly_once_original_result oneEventManifest 0 0 [0] sys0 (by decide)⟩

/-! ## C10 — the constructor's epoch argument is irrelevant -/

/-- C10: the epoch instant handed to `Simulation::new` has no observable
effect: for any two epoch arguments the session produces the same final host
state and the same outcome under every start time and wake schedule, because
`start_inner` re-captures the epoch (`self.epoch = Instant::now()`) right
after `enable()` returns and the driver only ever uses that re-captured value:
whenever enable succeeds, the simulation's epoch from that point on is the
scheduler start time, independent of the constructor argument. -/
theorem simulation_epoch_argument_irrelevant (m : Manifest) (e₁ e₂ startTime : Nat)
    (wakes : List Nat) (s : Sys) :
    ((Simulation.new m e₁).start startTime wakes s).1 =
      ((Simulation.new m e₂).start startTime wakes s).1 ∧
    ((Simulation.new m e₁).start startTime wakes s).2.2 =
      ((Simulation.new m e₂).start startTime wakes s).2.2 ∧
    (∀ ts', ((TrafficShaper.new m.config.toTrafficConfig).enable s).2 = Except.ok ts' →
      ((Simulation.new m e₁).start_inner startTime wakes s).2.1.epoch = startTime) := by
  rcases hen : (TrafficShaper.new m.config.toTrafficConfig).enable s with ⟨s₁, err | ts'⟩
  · refine ⟨?_, ?_, ?_⟩
    · simp [Simulation.start, Simulation.start_inner, Simulation.new, hen]
    · simp [Simulation.start, Simulation.start_inner, Simulation.new, hen]
    · intro ts' h
      exact absurd h (by simp)
  · refine ⟨?_, ?_, ?_⟩
    · simp [Simulation.start, Simulation.start_inner, Simulation.new, hen]
    · simp [Simulation.start, Simulation.start_inner, Simulation.new, hen]
    · intro ts'' h
      simp [Simulation.start_inner, Simulation.new, hen]

end Ditto
